import Mathlib

/-!
Shallow embedding of the button-input classifier and configuration-menu
controller of `firmware/src/button.c` (kxusbc2).

Module-level mutable state of `button.c` becomes the record `ButtonState`;
the two entry points `button_handle_interrupt` and
`button_handle_config_menu` become pure state-transformers that also return
the list of side effects (LED calls, configuration-store updates, short-press
callback invocation, hardware reset) they would issue.  16-bit tick
arithmetic is modelled on `Nat` with explicit `% 65536`; `uint8_t`
increments with explicit `% 256`.

External collaborators not present under `src/` (the RTC tick counter, the
charger state machine query and the `sysconfig` store) are modelled as
inputs, following the spec's collaborator contracts (§6).
-/

/-- The module-level mutable state of `button.c` (lines 10-18). -/
structure ButtonState where
  last_button_start_ticks : Nat
  button_pressed : Bool
  in_config_menu : Bool
  in_config_menu_item : Bool
  config_menu_index : Nat
  config_item_index : Nat
  config_short_press_pending : Bool
  config_medium_press_pending : Bool
  deriving DecidableEq, Repr

/-- Modelled from the spec: the configuration store's four persisted
parameters (`sysconfig.h` is not in the sources; §6 "Configuration store").
The two boolean parameters are stored as words, read for truthiness. -/
structure SysConfig where
  chargingCurrentLimit : Nat
  dcInputCurrentLimit : Nat
  chargeWhenRigIsOn : Nat
  enableThermistor : Nat
  deriving DecidableEq, Repr

/-- The four fields of `sysconfig` that `button.c` updates. -/
inductive ConfigField where
  | chargingCurrentLimit
  | dcInputCurrentLimit
  | chargeWhenRigIsOn
  | enableThermistor
  deriving DecidableEq, Repr

/-- Side effects issued by the two entry points of `button.c`. -/
inductive Effect where
  | ledWakeup
  | ledSetBlinking (red green blue : Bool) (brightness t_on t_off count pause : Nat)
  | updateWord (field : ConfigField) (value : Nat)
  | callShortHandler
  | reset
  deriving DecidableEq, Repr

/-- Wraparound-correct `uint16_t` subtraction, as in
`rtc_get_ticks() - last_button_start_ticks` (button.c line 162). -/
def sub16 (a b : Nat) : Nat :=
  (a % 65536 + 65536 - b % 65536) % 65536

/-- `current_values[]` (button.c line 74): the legal numeric thresholds. -/
def current_values (i : Nat) : Nat :=
  [500, 1000, 2000, 3000].getD i 0

/-- `button_config_menu_update_led` (button.c lines 31-40): the LED call
rendering the current menu position.  `count` is passed as `uint8_t`. -/
def button_config_menu_update_led (s : ButtonState) : Effect :=
  if s.in_config_menu_item then
    Effect.ledSetBlinking false false true 255 5 5 ((s.config_item_index + 1) % 256) 11
  else
    Effect.ledSetBlinking true true false 255 5 5 ((s.config_menu_index + 1) % 256) 11

/-- `button_handle_config_menu` (button.c lines 42-151).
`charger_disconnected` models `charger_sm_get_state() == CHARGER_DISCONNECTED`
(the charger state machine is not in the sources; spec §6
"Charger-state query").  Returns (new state, effects, return value). -/
def button_handle_config_menu (charger_disconnected : Bool) (cfg : SysConfig)
    (s : ButtonState) : ButtonState × List Effect × Bool :=
  if s.in_config_menu = false then
    if s.config_medium_press_pending = true ∧ charger_disconnected = true then
      let s' := { s with in_config_menu := true, in_config_menu_item := false,
                         config_menu_index := 0, config_item_index := 0,
                         config_medium_press_pending := false }
      (s', [Effect.ledWakeup, button_config_menu_update_led s'], s'.in_config_menu)
    else
      (s, [], s.in_config_menu)
  else
    let step : ButtonState × List Effect :=
      if s.in_config_menu_item = true then
        -- In menu item
        if s.config_medium_press_pending = true then
          -- Leave menu item
          ({ s with config_medium_press_pending := false, in_config_menu_item := false }, [])
        else if s.config_short_press_pending = true then
          -- Advance to next item value (uint8_t increment)
          let i0 := (s.config_item_index + 1) % 256
          let next : Nat × List Effect :=
            if s.config_menu_index = 0 then
              let i := i0 % 4
              (i, [Effect.updateWord ConfigField.chargingCurrentLimit (current_values i)])
            else if s.config_menu_index = 1 then
              let i := i0 % 4
              (i, [Effect.updateWord ConfigField.dcInputCurrentLimit (current_values i)])
            else if s.config_menu_index = 2 then
              let i := i0 % 2
              (i, [Effect.updateWord ConfigField.chargeWhenRigIsOn i])
            else if s.config_menu_index = 3 then
              let i := i0 % 2
              (i, [Effect.updateWord ConfigField.enableThermistor i])
            else
              (i0, [])
          ({ s with config_item_index := next.1, config_short_press_pending := false },
           next.2)
        else
          (s, [])
      else
        -- In main menu
        if s.config_short_press_pending = true then
          -- Advance to next menu item
          ({ s with config_menu_index := (s.config_menu_index + 1) % 4,
                    config_short_press_pending := false }, [])
        else if s.config_medium_press_pending = true then
          -- Enter selected menu item; resume at current config value
          let i :=
            if s.config_menu_index = 0 then
              if cfg.chargingCurrentLimit ≤ 500 then 0
              else if cfg.chargingCurrentLimit ≤ 1000 then 1
              else if cfg.chargingCurrentLimit ≤ 2000 then 2
              else 3
            else if s.config_menu_index = 1 then
              if cfg.dcInputCurrentLimit ≤ 500 then 0
              else if cfg.dcInputCurrentLimit ≤ 1000 then 1
              else if cfg.dcInputCurrentLimit ≤ 2000 then 2
              else 3
            else if s.config_menu_index = 2 then
              if cfg.chargeWhenRigIsOn ≠ 0 then 1 else 0
            else if s.config_menu_index = 3 then
              if cfg.enableThermistor ≠ 0 then 1 else 0
            else
              s.config_item_index
          ({ s with in_config_menu_item := true, config_medium_press_pending := false,
                    config_item_index := i }, [])
        else
          (s, [])
    (step.1, step.2 ++ [button_config_menu_update_led step.1], step.1.in_config_menu)

/-- The press classification thresholds of `button_handle_interrupt`
(button.c lines 165-177). -/
inductive PressClass where
  | Short
  | Medium
  | Long
  deriving DecidableEq, Repr

/-- The duration if-chain of button.c lines 165-177:
`> 50 && < 1000` short, `else if < 3000` medium, else long. -/
def pressClassify (d : Nat) : PressClass :=
  if 50 < d ∧ d < 1000 then PressClass.Short
  else if d < 3000 then PressClass.Medium
  else PressClass.Long

/-- The dispatch performed on a completed release for a given
classification (button.c lines 165-179), starting from the state with
`button_pressed` already cleared. -/
def releaseDispatch (c : PressClass) (handler_registered : Bool)
    (s : ButtonState) : ButtonState × List Effect :=
  match c with
  | PressClass.Short =>
      if s.in_config_menu = true then
        ({ s with config_short_press_pending := true }, [])
      else if handler_registered = true then
        (s, [Effect.callShortHandler])
      else
        (s, [])
  | PressClass.Medium =>
      ({ s with config_medium_press_pending := true }, [])
  | PressClass.Long =>
      (s, [Effect.reset])

/-- `button_handle_interrupt` (button.c lines 153-181).  `pin_high` models
`PORTA.IN & PIN4_bm` (the pin is inverted, so high = pressed); `now` models
`rtc_get_ticks()` (the RTC is not in the sources; spec §6 "Clock");
`handler_registered` models `short_press_handler != 0`. -/
def button_handle_interrupt (pin_high : Bool) (now : Nat)
    (handler_registered : Bool) (s : ButtonState) : ButtonState × List Effect :=
  if pin_high = true ∧ s.button_pressed = false then
    -- Button pressed
    ({ s with last_button_start_ticks := now % 65536, button_pressed := true }, [])
  else if s.button_pressed = true then
    -- Button released
    let d := sub16 now s.last_button_start_ticks
    releaseDispatch (pressClassify d) handler_registered
      { s with button_pressed := false }
  else
    (s, [])

/-- The reset state of the module-level variables of `button.c`. -/
def initialButtonState : ButtonState :=
  { last_button_start_ticks := 0, button_pressed := false,
    in_config_menu := false, in_config_menu_item := false,
    config_menu_index := 0, config_item_index := 0,
    config_short_press_pending := false, config_medium_press_pending := false }

/-- C1: for a completed press/release cycle the interrupt handler dispatches
according to the classification of the wraparound-safe duration
`d = release_tick - press_tick`, and that classification is `Short` when
`50 < d < 1000`, `Medium` when `d ≤ 50` or `1000 ≤ d < 3000`, and `Long`
when `d ≥ 3000`. -/
theorem interrupt_classifies_press_duration (p r : Nat) (handler_registered : Bool)
    (s : ButtonState) (hnp : s.button_pressed = false) :
    button_handle_interrupt false r handler_registered
        (button_handle_interrupt true p handler_registered s).1
      = releaseDispatch (pressClassify (sub16 r p)) handler_registered
          { s with last_button_start_ticks := p % 65536, button_pressed := false } ∧
    (50 < sub16 r p ∧ sub16 r p < 1000 →
      pressClassify (sub16 r p) = PressClass.Short) ∧
    (sub16 r p ≤ 50 ∨ (1000 ≤ sub16 r p ∧ sub16 r p < 3000) →
      pressClassify (sub16 r p) = PressClass.Medium) ∧
    (3000 ≤ sub16 r p → pressClassify (sub16 r p) = PressClass.Long) := by
  have hsub : sub16 r (p % 65536) = sub16 r p := by
    unfold sub16
    omega
  refine ⟨?_, ?_, ?_, ?_⟩
  · simp [button_handle_interrupt, hnp, hsub]
  · intro h
    simp [pressClassify, h]
  · intro h
    have h1 : ¬(50 < sub16 r p ∧ sub16 r p < 1000) := by omega
    have h2 : sub16 r p < 3000 := by omega
    simp [pressClassify, h1, h2]
  · intro h
    have h1 : ¬(50 < sub16 r p ∧ sub16 r p < 1000) := by omega
    have h2 : ¬(sub16 r p < 3000) := by omega
    simp [pressClassify, h1, h2]

/-- Witness for C1: a press at tick 0 released at tick 100 (duration 100)
is classified `Short`. -/
theorem interrupt_classifies_press_duration_witness :
    pressClassify (sub16 100 0) = PressClass.Short :=
  (interrupt_classifies_press_duration 0 100 false initialButtonState rfl).2.1
    (by decide)

/-- C10: a release classified `Short` (50 < d < 1000) while the menu is
inactive and no short-press handler is registered only clears the pressed
flag: no pending flag is set, no callback or other effect is issued, and
the rest of the state is untouched. -/
theorem short_press_idle_no_handler_dropped (now : Nat) (s : ButtonState)
    (hp : s.button_pressed = true) (hm : s.in_config_menu = false)
    (hlo : 50 < sub16 now s.last_button_start_ticks)
    (hhi : sub16 now s.last_button_start_ticks < 1000) :
    button_handle_interrupt false now false s
      = ({ s with button_pressed := false }, []) := by
  simp [button_handle_interrupt, hp, pressClassify, hlo, hhi, releaseDispatch, hm]

/-- Witness for C10: a 100-tick press with the menu inactive and no handler
registered is silently dropped. -/
theorem short_press_idle_no_handler_dropped_witness :
    button_handle_interrupt false 100 false
        { initialButtonState with button_pressed := true }
      = (initialButtonState, []) :=
  short_press_idle_no_handler_dropped 100
    { initialButtonState with button_pressed := true }
    rfl rfl (by decide) (by decide)

/-- Counterexample to C4 as stated: with the button already pressed (press
started at tick 0), a press edge (pin high) at tick 2000 is not a no-op —
the handler takes the release branch, clears the pressed flag and sets
`config_medium_press_pending`. -/
theorem press_while_pressed_not_noop_cex :
    (button_handle_interrupt true 2000 false
        { initialButtonState with button_pressed := true }).1.config_medium_press_pending
      = true ∧
    (button_handle_interrupt true 2000 false
        { initialButtonState with button_pressed := true }).1
      ≠ { initialButtonState with button_pressed := true } := by
  constructor
  · rfl
  · decide

/-- C4 (amended): a release edge while not pressed is a no-op (no state
change, no effect); a press edge while already pressed is handled exactly
like a release edge at the same tick, because the release branch never
consults the pin level. -/
theorem edge_in_matching_state (pin_high : Bool) (now : Nat)
    (handler_registered : Bool) (s : ButtonState) :
    (s.button_pressed = false → pin_high = false →
      button_handle_interrupt pin_high now handler_registered s = (s, [])) ∧
    (s.button_pressed = true → pin_high = true →
      button_handle_interrupt pin_high now handler_registered s
        = button_handle_interrupt false now handler_registered s) := by
  constructor
  · intro hb hpin
    simp [button_handle_interrupt, hb, hpin]
  · intro hb hpin
    simp [button_handle_interrupt, hb, hpin]

/-- Witness for C4 (amended): a release edge on the initial (unpressed)
state changes nothing. -/
theorem edge_in_matching_state_witness :
    button_handle_interrupt false 5 false initialButtonState
      = (initialButtonState, []) :=
  (edge_in_matching_state false 5 false initialButtonState).1 rfl rfl

/-- Counterexample to C3 as stated: in `Idle` with `medium_pending` set and
the charger not disconnected, the poll does NOT clear `medium_pending` —
the flag is still true afterwards. -/
theorem idle_medium_charger_busy_cex :
    (button_handle_config_menu false ⟨0, 0, 0, 0⟩
        { initialButtonState with config_medium_press_pending := true
        }).1.config_medium_press_pending = true := by
  decide

/-- C3 (amended): in `Idle` with `medium_pending` set but the charger not
idle/disconnected, the poll performs no transition, issues no effect,
returns false (menu inactive), and leaves the state — including the still
set `medium_pending` flag — unchanged. -/
theorem idle_medium_charger_busy (cfg : SysConfig) (s : ButtonState)
    (hi : s.in_config_menu = false) (hm : s.config_medium_press_pending = true) :
    button_handle_config_menu false cfg s = (s, [], false) ∧
    (button_handle_config_menu false cfg s).1.config_medium_press_pending = true := by
  constructor
  · simp [button_handle_config_menu, hi]
  · simp [button_handle_config_menu, hi, hm]

/-- Witness for C3 (amended): concrete idle state with `medium_pending` set,
charger busy. -/
theorem idle_medium_charger_busy_witness :
    button_handle_config_menu false ⟨0, 0, 0, 0⟩
        { initialButtonState with config_medium_press_pending := true }
      = ({ initialButtonState with config_medium_press_pending := true }, [], false) :=
  (idle_medium_charger_busy ⟨0, 0, 0, 0⟩
    { initialButtonState with config_medium_press_pending := true } rfl rfl).1

/-- Whether an effect is a configuration-store update
(`sysconfig_update_word`). -/
def Effect.isConfigUpdate : Effect → Bool
  | Effect.updateWord _ _ => true
  | _ => false

/-- Whether an effect is the hardware reset (`RSTCTRL.SWRR` write). -/
def Effect.isReset : Effect → Bool
  | Effect.reset => true
  | _ => false

/-- C7: a poll entered with both pending flags false leaves the whole state
unchanged, issues no configuration-store update and no reset (the only
effects are LED feedback), and returns the unchanged menu-active flag. -/
theorem poll_no_pending_idempotent (charger_disconnected : Bool)
    (cfg : SysConfig) (s : ButtonState)
    (hs : s.config_short_press_pending = false)
    (hm : s.config_medium_press_pending = false) :
    (button_handle_config_menu charger_disconnected cfg s).1 = s ∧
    (∀ e ∈ (button_handle_config_menu charger_disconnected cfg s).2.1,
      e.isConfigUpdate = false ∧ e.isReset = false) ∧
    (button_handle_config_menu charger_disconnected cfg s).2.2 = s.in_config_menu := by
  cases hic : s.in_config_menu <;> cases hici : s.in_config_menu_item <;>
    simp [button_handle_config_menu, hs, hm, hic, hici,
      button_config_menu_update_led, Effect.isConfigUpdate, Effect.isReset]

/-- Witness for C7: polling an `ItemEdit`-like state with no pending flags
changes nothing. -/
theorem poll_no_pending_idempotent_witness :
    (button_handle_config_menu true ⟨0, 0, 0, 0⟩
        { initialButtonState with
          in_config_menu := true,
          in_config_menu_item := true }).1
      = { initialButtonState with
          in_config_menu := true,
          in_config_menu_item := true } :=
  (poll_no_pending_idempotent true ⟨0, 0, 0, 0⟩
    { initialButtonState with in_config_menu := true, in_config_menu_item := true }
    rfl rfl).1

/-- C5: with both pending flags set entering a poll, in `MainMenu` only the
short-press transition fires and `medium_pending` survives; in `ItemEdit`
only the medium-press transition fires and `short_pending` survives. -/
theorem both_flags_one_consumed (charger_disconnected : Bool)
    (cfg : SysConfig) (s : ButtonState)
    (hmenu : s.in_config_menu = true)
    (hs : s.config_short_press_pending = true)
    (hmed : s.config_medium_press_pending = true) :
    (s.in_config_menu_item = false →
      (button_handle_config_menu charger_disconnected cfg s).1
        = { s with config_menu_index := (s.config_menu_index + 1) % 4,
                   config_short_press_pending := false } ∧
      (button_handle_config_menu charger_disconnected cfg s).1.config_medium_press_pending
        = true) ∧
    (s.in_config_menu_item = true →
      (button_handle_config_menu charger_disconnected cfg s).1
        = { s with config_medium_press_pending := false,
                   in_config_menu_item := false } ∧
      (button_handle_config_menu charger_disconnected cfg s).1.config_short_press_pending
        = true) := by
  constructor
  · intro hici
    constructor
    · simp [button_handle_config_menu, hmenu, hici, hs]
    · simp [button_handle_config_menu, hmenu, hici, hs, hmed]
  · intro hici
    constructor
    · simp [button_handle_config_menu, hmenu, hici, hmed]
    · simp [button_handle_config_menu, hmenu, hici, hmed, hs]

/-- Witness for C5: in `MainMenu{0}` with both flags set, the poll advances
the menu index and keeps `medium_pending`. -/
theorem both_flags_one_consumed_witness :
    (button_handle_config_menu true ⟨0, 0, 0, 0⟩
        { initialButtonState with
          in_config_menu := true,
          config_short_press_pending := true,
          config_medium_press_pending := true }).1
      = { initialButtonState with
          in_config_menu := true,
          config_menu_index := 1,
          config_medium_press_pending := true } :=
  ((both_flags_one_consumed true ⟨0, 0, 0, 0⟩
      { initialButtonState with
        in_config_menu := true,
        config_short_press_pending := true,
        config_medium_press_pending := true }
      rfl rfl rfl).1 rfl).1

/-- C6: in `ItemEdit{m,i}` a pending short press (medium not pending)
advances `item_index` to `(i+1) mod modulus(m)` — modulus 4 for the numeric
parameters m ∈ {0,1}, 2 for the boolean ones m ∈ {2,3} — and issues exactly
one configuration-store update carrying the new index's value
(`current_values` for m ∈ {0,1}, the index itself for m ∈ {2,3}). -/
theorem item_edit_short_advances (charger_disconnected : Bool) (cfg : SysConfig)
    (s : ButtonState)
    (hmenu : s.in_config_menu = true) (hitem : s.in_config_menu_item = true)
    (hs : s.config_short_press_pending = true)
    (hmed : s.config_medium_press_pending = false)
    (hmi : s.config_menu_index < 4) :
    (button_handle_config_menu charger_disconnected cfg s).1
      = { s with
          config_item_index :=
            (s.config_item_index + 1) % (if s.config_menu_index ≤ 1 then 4 else 2),
          config_short_press_pending := false } ∧
    List.filter Effect.isConfigUpdate
        (button_handle_config_menu charger_disconnected cfg s).2.1
      = [Effect.updateWord
          (if s.config_menu_index = 0 then ConfigField.chargingCurrentLimit
           else if s.config_menu_index = 1 then ConfigField.dcInputCurrentLimit
           else if s.config_menu_index = 2 then ConfigField.chargeWhenRigIsOn
           else ConfigField.enableThermistor)
          (if s.config_menu_index ≤ 1 then
            current_values ((s.config_item_index + 1) % 4)
           else (s.config_item_index + 1) % 2)] := by
  have h4 : ∀ n : Nat, n % 256 % 4 = n % 4 := fun n =>
    Nat.mod_mod_of_dvd n (by norm_num)
  have h2 : ∀ n : Nat, n % 256 % 2 = n % 2 := fun n =>
    Nat.mod_mod_of_dvd n (by norm_num)
  have hcases : s.config_menu_index = 0 ∨ s.config_menu_index = 1 ∨
      s.config_menu_index = 2 ∨ s.config_menu_index = 3 := by omega
  rcases hcases with h | h | h | h <;>
    simp [button_handle_config_menu, hmenu, hitem, hs, hmed, h, h4, h2,
      Effect.isConfigUpdate, button_config_menu_update_led]

/-- Witness for C6 (the spec's own example): `m = 0`, `i = 3` advances to
`i = 0` and persists `current_values 0 = 500`. -/
theorem item_edit_short_advances_witness :
    (button_handle_config_menu true ⟨0, 0, 0, 0⟩
        { initialButtonState with
          in_config_menu := true,
          in_config_menu_item := true,
          config_item_index := 3,
          config_short_press_pending := true }).1
      = { initialButtonState with
          in_config_menu := true,
          in_config_menu_item := true,
          config_item_index := (3 + 1) % 4,
          config_short_press_pending := false } :=
  (item_edit_short_advances true ⟨0, 0, 0, 0⟩
    { initialButtonState with
      in_config_menu := true,
      in_config_menu_item := true,
      config_item_index := 3,
      config_short_press_pending := true }
    rfl rfl rfl rfl (by decide)).1

/-- Helper: the threshold ladder used on entry into a numeric menu item
(button.c lines 114-122 / 126-134) always yields an index below 4. -/
theorem entryLadder_lt_four (v : Nat) :
    (if v ≤ 500 then 0 else if v ≤ 1000 then 1
     else if v ≤ 2000 then 2 else (3 : Nat)) < 4 := by
  split_ifs <;> omega

/-- Helper: for stored values up to 3000 the entry ladder picks the least
index whose threshold is ≥ the stored value. -/
theorem entryLadder_round_up (v : Nat) (hv : v ≤ 3000) :
    v ≤ current_values
        (if v ≤ 500 then 0 else if v ≤ 1000 then 1
         else if v ≤ 2000 then 2 else 3) ∧
    ∀ j, j < (if v ≤ 500 then 0 else if v ≤ 1000 then 1
              else if v ≤ 2000 then 2 else (3 : Nat)) →
      current_values j < v := by
  split_ifs with h1 h2 h3 <;>
    refine ⟨by simp [current_values]; omega, ?_⟩ <;>
    intro j hj <;> interval_cases j <;> simp [current_values] <;> omega

/-- Helper: for stored values above 3000 the entry ladder defaults to
index 3. -/
theorem entryLadder_top (v : Nat) (hv : 3000 < v) :
    (if v ≤ 500 then 0 else if v ≤ 1000 then 1
     else if v ≤ 2000 then 2 else (3 : Nat)) = 3 := by
  split_ifs <;> omega

/-- Counterexample to C2 as stated: in `MainMenu{0}` with stored charging
limit 1500, consuming the medium press enters at `item_index = 2` (the
index of 2000), not at the index of 1000 as the claim's rule ("largest
threshold ≤ the stored value") requires. -/
theorem entry_index_claim_cex :
    (button_handle_config_menu true ⟨1500, 0, 0, 0⟩
        { initialButtonState with
          in_config_menu := true,
          config_medium_press_pending := true }).1.config_item_index = 2 ∧
    (button_handle_config_menu true ⟨1500, 0, 0, 0⟩
        { initialButtonState with
          in_config_menu := true,
          config_medium_press_pending := true }).1.config_item_index ≠ 1 ∧
    current_values 1 = 1000 ∧ current_values 2 = 2000 := by
  decide

/-- C2 (amended): when a medium press is consumed in `MainMenu{m}` with
m ∈ {0,1}, the entry `item_index` is the index of the SMALLEST legal
threshold that is ≥ the currently stored value, defaulting to the index of
3000 when the stored value exceeds every threshold (stored value 1500
enters at the index of 2000). -/
theorem main_menu_medium_entry_rounds_up (charger_disconnected : Bool)
    (cfg : SysConfig) (s : ButtonState)
    (hmenu : s.in_config_menu = true) (hitem : s.in_config_menu_item = false)
    (hs : s.config_short_press_pending = false)
    (hmed : s.config_medium_press_pending = true)
    (hmi : s.config_menu_index = 0 ∨ s.config_menu_index = 1) :
    (button_handle_config_menu charger_disconnected cfg s).1.in_config_menu_item
      = true ∧
    (button_handle_config_menu charger_disconnected cfg s).1.config_item_index < 4 ∧
    ((if s.config_menu_index = 0 then cfg.chargingCurrentLimit
      else cfg.dcInputCurrentLimit) ≤ 3000 →
      (if s.config_menu_index = 0 then cfg.chargingCurrentLimit
       else cfg.dcInputCurrentLimit)
        ≤ current_values
            (button_handle_config_menu charger_disconnected cfg s).1.config_item_index ∧
      ∀ j, j < (button_handle_config_menu charger_disconnected cfg s).1.config_item_index →
        current_values j <
          (if s.config_menu_index = 0 then cfg.chargingCurrentLimit
           else cfg.dcInputCurrentLimit)) ∧
    (3000 < (if s.config_menu_index = 0 then cfg.chargingCurrentLimit
             else cfg.dcInputCurrentLimit) →
      (button_handle_config_menu charger_disconnected cfg s).1.config_item_index = 3) := by
  rcases hmi with h | h
  · have hidx : (button_handle_config_menu charger_disconnected cfg s).1.config_item_index
        = (if cfg.chargingCurrentLimit ≤ 500 then 0
           else if cfg.chargingCurrentLimit ≤ 1000 then 1
           else if cfg.chargingCurrentLimit ≤ 2000 then 2 else 3) := by
      simp [button_handle_config_menu, hmenu, hitem, hs, hmed, h]
    have hit : (button_handle_config_menu charger_disconnected cfg s).1.in_config_menu_item
        = true := by
      simp [button_handle_config_menu, hmenu, hitem, hs, hmed, h]
    rw [hidx]
    simp only [h, if_pos rfl]
    exact ⟨hit, entryLadder_lt_four _,
      fun hv => entryLadder_round_up _ hv, fun hv => entryLadder_top _ hv⟩
  · have h0 : ¬(s.config_menu_index = 0) := by omega
    have hidx : (button_handle_config_menu charger_disconnected cfg s).1.config_item_index
        = (if cfg.dcInputCurrentLimit ≤ 500 then 0
           else if cfg.dcInputCurrentLimit ≤ 1000 then 1
           else if cfg.dcInputCurrentLimit ≤ 2000 then 2 else 3) := by
      simp [button_handle_config_menu, hmenu, hitem, hs, hmed, h]
    have hit : (button_handle_config_menu charger_disconnected cfg s).1.in_config_menu_item
        = true := by
      simp [button_handle_config_menu, hmenu, hitem, hs, hmed, h]
    rw [hidx]
    simp only [h0, if_neg, ite_false]
    exact ⟨hit, entryLadder_lt_four _,
      fun hv => entryLadder_round_up _ hv, fun hv => entryLadder_top _ hv⟩

/-- Witness for C2 (amended): stored charging limit 1500 enters edit mode
with an item index whose threshold is ≥ 1500. -/
theorem main_menu_medium_entry_rounds_up_witness :
    (1500 : Nat) ≤ current_values
      (button_handle_config_menu true ⟨1500, 0, 0, 0⟩
          { initialButtonState with
            in_config_menu := true,
            config_medium_press_pending := true }).1.config_item_index :=
  ((main_menu_medium_entry_rounds_up true ⟨1500, 0, 0, 0⟩
      { initialButtonState with
        in_config_menu := true,
        config_medium_press_pending := true }
      rfl rfl rfl rfl (Or.inl rfl)).2.2.1 (by decide)).1

/-- One step of the system: a main-loop poll of the menu controller or a
button edge interrupt. -/
inductive MenuStep where
  | poll (charger_disconnected : Bool) (cfg : SysConfig)
  | edge (pin_high : Bool) (now : Nat) (handler_registered : Bool)

/-- The state transformation performed by a step. -/
def applyStep : MenuStep → ButtonState → ButtonState
  | MenuStep.poll c cfg, s => (button_handle_config_menu c cfg s).1
  | MenuStep.edge p n hr, s => (button_handle_interrupt p n hr s).1

/-- Running a sequence of steps. -/
def runSteps (l : List MenuStep) (s : ButtonState) : ButtonState :=
  l.foldl (fun s st => applyStep st s) s

/-- Helper: the interrupt handler never touches the menu-controller fields
other than the pending flags. -/
theorem interrupt_preserves_menu_fields (p : Bool) (n : Nat) (hr : Bool)
    (s : ButtonState) :
    (button_handle_interrupt p n hr s).1.in_config_menu = s.in_config_menu ∧
    (button_handle_interrupt p n hr s).1.in_config_menu_item = s.in_config_menu_item ∧
    (button_handle_interrupt p n hr s).1.config_menu_index = s.config_menu_index ∧
    (button_handle_interrupt p n hr s).1.config_item_index = s.config_item_index := by
  unfold button_handle_interrupt
  split_ifs with h1 h2
  · simp
  · cases hc : pressClassify (sub16 n s.last_button_start_ticks) <;>
      simp only [releaseDispatch, hc] <;> (try split_ifs) <;> simp
  · simp

/-- Helper: the poll's return value is the menu-active flag of the state it
leaves behind. -/
theorem poll_returns_menu_active (charger_disconnected : Bool) (cfg : SysConfig)
    (s : ButtonState) :
    (button_handle_config_menu charger_disconnected cfg s).2.2
      = (button_handle_config_menu charger_disconnected cfg s).1.in_config_menu := by
  obtain ⟨lt, bp, icm, icmi, mi, ii, sp, mp⟩ := s
  cases icm <;> cases icmi <;> cases sp <;> cases mp <;>
    cases charger_disconnected <;> simp [button_handle_config_menu]

/-- Helper: no step ever clears `in_config_menu` once it is set. -/
theorem applyStep_menu_active (st : MenuStep) (s : ButtonState)
    (h : s.in_config_menu = true) : (applyStep st s).in_config_menu = true := by
  cases st with
  | poll c cfg =>
      simp only [applyStep]
      obtain ⟨lt, bp, icm, icmi, mi, ii, sp, mp⟩ := s
      simp only at h
      subst h
      cases icmi <;> cases sp <;> cases mp <;>
        simp [button_handle_config_menu]
  | edge p n hr =>
      simpa [applyStep, (interrupt_preserves_menu_fields p n hr s).1] using h

/-- C9: once the menu has been entered (`in_config_menu = true`), no
sequence of polls or button events ever returns it to `Idle`, and every
later poll still reports the menu active (returns true). -/
theorem menu_never_exits (l : List MenuStep) (s : ButtonState)
    (h : s.in_config_menu = true) (charger_disconnected : Bool) (cfg : SysConfig) :
    (runSteps l s).in_config_menu = true ∧
    (button_handle_config_menu charger_disconnected cfg (runSteps l s)).2.2 = true := by
  have hrun : ∀ (l : List MenuStep) (s : ButtonState), s.in_config_menu = true →
      (runSteps l s).in_config_menu = true := by
    intro l
    induction l with
    | nil => intro s hs; exact hs
    | cons st rest ih => intro s hs; exact ih _ (applyStep_menu_active st s hs)
  refine ⟨hrun l s h, ?_⟩
  rw [poll_returns_menu_active]
  exact applyStep_menu_active (MenuStep.poll charger_disconnected cfg) _ (hrun l s h)

/-- Witness for C9: from an active-menu state, a poll followed by a button
edge leaves the menu active and a further poll returns true. -/
theorem menu_never_exits_witness :
    (runSteps [MenuStep.poll true ⟨0, 0, 0, 0⟩, MenuStep.edge true 7 false]
        { initialButtonState with in_config_menu := true }).in_config_menu = true ∧
    (button_handle_config_menu false ⟨0, 0, 0, 0⟩
        (runSteps [MenuStep.poll true ⟨0, 0, 0, 0⟩, MenuStep.edge true 7 false]
          { initialButtonState with in_config_menu := true })).2.2 = true :=
  menu_never_exits [MenuStep.poll true ⟨0, 0, 0, 0⟩, MenuStep.edge true 7 false]
    { initialButtonState with in_config_menu := true } rfl false ⟨0, 0, 0, 0⟩

/-- States reachable from the reset state through any interleaving of
polls and button edge interrupts. -/
inductive ReachableState : ButtonState → Prop where
  | init : ReachableState initialButtonState
  | step (st : MenuStep) {s : ButtonState} :
      ReachableState s → ReachableState (applyStep st s)

/-- Helper: running a step list preserves reachability. -/
theorem reachable_runSteps {s : ButtonState} (l : List MenuStep)
    (h : ReachableState s) : ReachableState (runSteps l s) := by
  induction l generalizing s with
  | nil => exact h
  | cons st rest ih => exact ih (ReachableState.step st h)

/-- The inductive invariant of the menu controller: the menu index is in
range whenever the menu is active, and in `ItemEdit` the item index is in
the selected parameter's domain. -/
def MenuInv (s : ButtonState) : Prop :=
  (s.in_config_menu = true → s.config_menu_index < 4) ∧
  (s.in_config_menu_item = true →
    (s.config_menu_index ≤ 1 → s.config_item_index < 4) ∧
    (2 ≤ s.config_menu_index → s.config_item_index < 2))

/-- Helper: every step preserves the menu invariant. -/
theorem applyStep_menuInv (st : MenuStep) (s : ButtonState) (h : MenuInv s) :
    MenuInv (applyStep st s) := by
  obtain ⟨h1, h2⟩ := h
  cases st with
  | edge p n hr =>
      obtain ⟨e1, e2, e3, e4⟩ := interrupt_preserves_menu_fields p n hr s
      refine ⟨?_, ?_⟩
      · intro hm
        simp only [applyStep] at hm ⊢
        rw [e1] at hm
        rw [e3]
        exact h1 hm
      · intro hm
        simp only [applyStep] at hm ⊢
        rw [e2] at hm
        rw [e3, e4]
        exact h2 hm
  | poll c cfg =>
      simp only [applyStep]
      obtain ⟨lt, bp, icm, icmi, mi, ii, sp, mp⟩ := s
      simp only at h1 h2
      cases icm with
      | false =>
          cases mp <;> cases c <;>
            simp_all [button_handle_config_menu, MenuInv]
      | true =>
          have hmi : mi < 4 := h1 rfl
          cases icmi with
          | true =>
              have hii := h2 rfl
              cases mp with
              | true =>
                  simp_all [button_handle_config_menu, MenuInv]
              | false =>
                  cases sp with
                  | false => simp_all [button_handle_config_menu, MenuInv]
                  | true =>
                      have hc : mi = 0 ∨ mi = 1 ∨ mi = 2 ∨ mi = 3 := by omega
                      rcases hc with h | h | h | h <;>
                        subst h <;>
                        simp_all [button_handle_config_menu, MenuInv] <;>
                        omega
          | false =>
              cases sp with
              | true =>
                  constructor <;>
                    (simp_all [button_handle_config_menu, MenuInv]; try omega)
              | false =>
                  cases mp with
                  | false => simp_all [button_handle_config_menu, MenuInv]
                  | true =>
                      have hc : mi = 0 ∨ mi = 1 ∨ mi = 2 ∨ mi = 3 := by omega
                      rcases hc with h | h | h | h <;>
                        subst h <;>
                        simp_all [button_handle_config_menu, MenuInv] <;>
                        split_ifs <;> omega

/-- A step list driving the system from reset into `ItemEdit{0,0}`: a
2000-tick (medium) press opens the menu, a second medium press enters the
first item. -/
def reachItemEditSteps : List MenuStep :=
  [MenuStep.edge true 0 false, MenuStep.edge false 2000 false,
   MenuStep.poll true ⟨0, 0, 0, 0⟩,
   MenuStep.edge true 3000 false, MenuStep.edge false 5000 false,
   MenuStep.poll true ⟨0, 0, 0, 0⟩]

/-- Helper: every reachable state satisfies the menu invariant. -/
theorem reachable_menuInv (s : ButtonState) (h : ReachableState s) :
    MenuInv s := by
  induction h with
  | init => exact ⟨fun hm => by simp [initialButtonState] at hm,
      fun hm => by simp [initialButtonState] at hm⟩
  | step st hprev ih => exact applyStep_menuInv st _ ih

/-- C8: in every state reachable from reset, whenever the controller is in
`ItemEdit` the item index is legal for the selected parameter:
`item_index < 4` when `menu_index ∈ {0,1}` and `item_index < 2` when
`menu_index ∈ {2,3}`. -/
theorem item_index_always_legal (s : ButtonState) (h : ReachableState s)
    (hitem : s.in_config_menu_item = true) :
    ((s.config_menu_index = 0 ∨ s.config_menu_index = 1) →
      s.config_item_index < 4) ∧
    ((s.config_menu_index = 2 ∨ s.config_menu_index = 3) →
      s.config_item_index < 2) := by
  obtain ⟨h1, h2⟩ := reachable_menuInv s h
  obtain ⟨ha, hb⟩ := h2 hitem
  constructor
  · rintro (h | h) <;> exact ha (by omega)
  · rintro (h | h) <;> exact hb (by omega)

/-- Witness for C8: the concrete reachable `ItemEdit{0,0}` state has a
legal item index. -/
theorem item_index_always_legal_witness :
    (runSteps reachItemEditSteps initialButtonState).config_item_index < 4 :=
  (item_index_always_legal (runSteps reachItemEditSteps initialButtonState)
      (reachable_runSteps reachItemEditSteps ReachableState.init)
      (by decide)).1 (Or.inl (by decide))
